import Mathlib

/-!
Shallow embedding of glean's network-configuration core (glean/cmd.py):
the interface normalizer (get_config_drive_interfaces), the device prober
(is_interface_live, interface_live, get_sys_interfaces), the two renderers
(write_debian_interfaces, write_redhat_interfaces and their helpers), and
the writer (finish_files).  Python dicts are modelled as ordered
association lists with in-place update, Python exceptions as an explicit
error type threaded through Except, and the filesystem checks of the
renderers (os.path.exists) as boolean oracle functions.
-/

namespace Glean

/-! Character-list and string utilities used to model Python string tests. -/

def chPref : List Char → List Char → Bool
  | [], _ => true
  | _ :: _, [] => false
  | a :: as, b :: bs => a == b && chPref as bs

def strStartsWith (s p : String) : Bool := chPref p.data s.data

def chLe : List Char → List Char → Bool
  | [], _ => true
  | _ :: _, [] => false
  | a :: as, b :: bs => if a = b then chLe as bs else decide (a < b)

def strLe (a b : String) : Bool := chLe a.data b.data

/-- Python str.strip(): remove leading and trailing whitespace. -/
def pyStrip (s : String) : String :=
  ⟨((s.data.dropWhile Char.isWhitespace).reverse.dropWhile
      Char.isWhitespace).reverse⟩

/-- Python str.lower(): lower-case every character. -/
def pyLower (s : String) : String := ⟨s.data.map Char.toLower⟩

/-- Stable insertion used to model Python's sorted(); equal elements keep
their original relative order, matching CPython's stable sort. -/
def pyInsert (le : α → α → Bool) (a : α) : List α → List α
  | [] => [a]
  | b :: l => if le a b then a :: b :: l else b :: pyInsert le a l

def pySort (le : α → α → Bool) : List α → List α
  | [] => []
  | a :: l => pyInsert le a (pySort le l)

/-! Python dict model: ordered association lists, update in place. -/

def alistGet [DecidableEq κ] : List (κ × α) → κ → Option α
  | [], _ => none
  | (k2, v2) :: rest, k => if k2 = k then some v2 else alistGet rest k

def alistSet [DecidableEq κ] : List (κ × α) → κ → α → List (κ × α)
  | [], k, v => [(k, v)]
  | (k2, v2) :: rest, k, v =>
    if k2 = k then (k2, v) :: rest else (k2, v2) :: alistSet rest k v

def alistDel [DecidableEq κ] : List (κ × α) → κ → List (κ × α)
  | [], _ => []
  | (k2, v2) :: rest, k => if k2 = k then rest else (k2, v2) :: alistDel rest k

/-- Python dict.update: fold the entries of the second dict into the first. -/
def alistUpdate [DecidableEq κ] (d e : List (κ × α)) : List (κ × α) :=
  e.foldl (fun acc p => alistSet acc p.1 p.2) d

/-! Python values and exceptions, as far as cmd.py needs them. -/

inductive PyVal where
  | str (s : String)
  | int (n : Int)
  | pynone
  | obj (n : Nat)
deriving DecidableEq, Repr

inductive PyErr where
  | keyError
  | attributeError
  | unboundLocalError
  | ioError (errno : Nat)
deriving DecidableEq, Repr

abbrev Dict := List (String × PyVal)

abbrev PyMap := List (PyVal × Dict)

/-! Renderer data model: one normalized interface record, as consumed by
write_debian_interfaces / write_redhat_interfaces. -/

structure Route where
  network : String
  netmask : String
  gateway : String
deriving DecidableEq, Repr

structure IfaceRec where
  id : String
  type : String
  mac_address : String
  ip_address : String
  netmask : String
  vlan_id : Option Nat
  routes : List Route
deriving DecidableEq, Repr

def isDefaultRoute (r : Route) : Bool :=
  r.network == "0.0.0.0" && r.netmask == "0.0.0.0"

/-- Module constant post_up of cmd.py, with the format fields substituted. -/
def post_up (net mask gw : String) : String :=
  "    post-up route add -net " ++
    (net ++ (" netmask " ++ (mask ++ (" gw " ++ (gw ++ " || true\n")))))

/-- Module constant pre_down of cmd.py, with the format fields substituted. -/
def pre_down (net mask gw : String) : String :=
  "    pre-down route del -net " ++
    (net ++ (" netmask " ++ (mask ++ (" gw " ++ (gw ++ " || true\n")))))

/-- The route loop of the static branch of write_debian_interfaces: a
default route appends one gateway line, any other route appends a
post-up line and a pre-down line. -/
def debianRouteLines (routes : List Route) : List String :=
  routes.flatMap fun r =>
    if isDefaultRoute r then ["    gateway " ++ (r.gateway ++ "\n")]
    else [post_up r.network r.netmask r.gateway,
          pre_down r.network r.netmask r.gateway]

def eni_path : String := "/etc/network/interfaces"

def debianIfacePath (name : String) : String :=
  "/etc/network/interfaces.d/" ++ (name ++ ".cfg")

def debianBaseContent : String :=
  "auto lo\niface lo inet loopback\nsource /etc/network/interfaces.d/*.cfg\n"

def debianDhcpStanza (name : String) (vlanRaw : Option String) : String :=
  "auto " ++ (name ++ "\n") ++ ("iface " ++ (name ++ " inet dhcp\n")) ++
    (match vlanRaw with
     | some d => "    vlan-raw-device " ++ (d ++ "\n")
     | none => "")

def debianStaticStanza (name : String) (vlanRaw : Option String)
    (linkType : String) (interface : IfaceRec) : String :=
  "auto " ++ (name ++ "\n") ++
  ("iface " ++ (name ++ (" " ++ (linkType ++ " static\n")))) ++
  (match vlanRaw with
   | some d => "    vlan-raw-device " ++ (d ++ "\n")
   | none => "") ++
  ("    address " ++ (interface.ip_address ++ "\n")) ++
  ("    netmask " ++ (interface.netmask ++ "\n")) ++
  String.join (debianRouteLines interface.routes)

/-- Rendered device name and vlan-raw-device for the Debian dialect:
a record with a vlan_id renders against physical.vlan_id. -/
def debianDeviceName (sysName : String) (interface : IfaceRec) :
    String × Option String :=
  match interface.vlan_id with
  | some v => (sysName ++ ("." ++ toString v), some sysName)
  | none => (sysName, none)

/-- First loop of write_debian_interfaces.  The link_type local of the
Python source is threaded explicitly: it starts unbound (none) and is
only assigned in the ipv6/ipv4 branches, so a record of any other kind
either reads an unbound local (UnboundLocalError) or silently reuses the
value left over from an earlier record, exactly as CPython does. -/
def debianMetaLoop (sys : List (String × String)) :
    List (String × IfaceRec) → List (String × String) → Option String →
    Except PyErr (List (String × String))
  | [], files, _ => .ok files
  | (iname, interface) :: rest, files, link_type =>
    match alistGet sys iname with
    | none => debianMetaLoop sys rest files link_type
    | some sysName =>
      let nd := debianDeviceName sysName interface
      let iface_path := debianIfacePath nd.1
      if interface.type == "ipv4_dhcp" then
        debianMetaLoop sys rest
          (alistSet files iface_path (debianDhcpStanza nd.1 nd.2)) link_type
      else
        match (if interface.type == "ipv6" then some "inet6"
               else if interface.type == "ipv4" then some "inet"
               else link_type) with
        | none => .error .unboundLocalError
        | some lt =>
          if lt == "" then debianMetaLoop sys rest files (some lt)
          else debianMetaLoop sys rest
            (alistSet files iface_path (debianStaticStanza nd.1 nd.2 lt interface))
            (some lt)

/-- Second loop of write_debian_interfaces: DHCP fallback for live system
devices, skipping devices with a pre-existing config file and devices
with config-drive metadata. -/
def debianFallback (macs : List String) (existsDeb : String → Bool) :
    List (String × String) → List (String × String) → List (String × String)
  | files, [] => files
  | files, (mac, iname) :: rest =>
    if existsDeb iname then debianFallback macs existsDeb files rest
    else if macs.contains mac then debianFallback macs existsDeb files rest
    else debianFallback macs existsDeb
      (alistSet files (debianIfacePath iname) (debianDhcpStanza iname none)) rest

def idLe (a b : String × IfaceRec) : Bool := strLe a.2.id b.2.id

def nameLe (a b : String × String) : Bool := strLe a.2 b.2

def write_debian_interfaces (interfaces : List (String × IfaceRec))
    (sys_interfaces : List (String × String)) (existsDeb : String → Bool) :
    Except PyErr (List (String × String)) :=
  match debianMetaLoop sys_interfaces (pySort idLe interfaces)
      [(eni_path, debianBaseContent)] none with
  | .error e => .error e
  | .ok files =>
    .ok (debianFallback (interfaces.map Prod.fst) existsDeb files
      (pySort nameLe sys_interfaces))

def rhIfcfgPath (name : String) : String :=
  "/etc/sysconfig/network-scripts/ifcfg-" ++ name

def rhRoutePath (name : String) : String :=
  "/etc/sysconfig/network-scripts/route-" ++ name

/-- Lines of the ifcfg file produced by _write_rh_interface: fixed header,
optional VLAN=yes, then DEFROUTE=yes/GATEWAY= pairs for the default
routes in route order. -/
def rhIfaceLines (name : String) (interface : IfaceRec) (has_vlan : Bool) :
    List String :=
  ["# Automatically generated, do not edit\n",
   "DEVICE=" ++ (name ++ "\n"),
   "BOOTPROTO=static\n",
   "HWADDR=" ++ (interface.mac_address ++ "\n"),
   "IPADDR=" ++ (interface.ip_address ++ "\n"),
   "NETMASK=" ++ (interface.netmask ++ "\n"),
   "ONBOOT=yes\n",
   "NM_CONTROLLED=no\n"] ++
  (if has_vlan then ["VLAN=yes\n"] else []) ++
  (interface.routes.filter isDefaultRoute).flatMap
    (fun r => ["DEFROUTE=yes\n", "GATEWAY=" ++ (r.gateway ++ "\n")])

/-- Lines of the route- companion file: numbered ADDRESSx/NETMASKx/GATEWAYx
entries over the non-default routes, x counting from 0. -/
def rhRouteFileLines (x : Nat) : List Route → List String
  | [] => []
  | r :: rest =>
    ("ADDRESS" ++ (toString x ++ ("=" ++ (r.network ++ "\n")))) ::
    ("NETMASK" ++ (toString x ++ ("=" ++ (r.netmask ++ "\n")))) ::
    ("GATEWAY" ++ (toString x ++ ("=" ++ (r.gateway ++ "\n")))) ::
    rhRouteFileLines (x + 1) rest

def _write_rh_interface (name : String) (interface : IfaceRec)
    (has_vlan : Bool) : List (String × String) :=
  let nonDefault := interface.routes.filter (fun r => !isDefaultRoute r)
  (if nonDefault.isEmpty then []
   else [(rhRoutePath name, String.join (rhRouteFileLines 0 nonDefault))]) ++
  [(rhIfcfgPath name, String.join (rhIfaceLines name interface has_vlan))]

def _write_rh_dhcp (name hwaddr : String) (has_vlan : Bool) :
    List (String × String) :=
  [(rhIfcfgPath name,
    "# Automatically generated, do not edit\nDEVICE=" ++
      (name ++ ("\nBOOTPROTO=dhcp\nHWADDR=" ++
        (hwaddr ++ "\nONBOOT=yes\nNM_CONTROLLED=no\nTYPE=Ethernet\n"))) ++
      (if has_vlan then "VLAN=yes\n" else ""))]

def rhDeviceName (sysName : String) (interface : IfaceRec) : String × Bool :=
  match interface.vlan_id with
  | some v => (sysName ++ ("." ++ toString v), true)
  | none => (sysName, false)

/-- First loop of write_redhat_interfaces: ipv6 records are skipped, ipv4
and ipv4_dhcp records are rendered, anything else falls through both
type tests and produces nothing. -/
def rhMetaLoop (sys : List (String × String)) :
    List (String × IfaceRec) → List (String × String) → List (String × String)
  | [], files => files
  | (iname, interface) :: rest, files =>
    if interface.type == "ipv6" then rhMetaLoop sys rest files
    else
      match alistGet sys iname with
      | none => rhMetaLoop sys rest files
      | some sysName =>
        let nd := rhDeviceName sysName interface
        let files2 := if interface.type == "ipv4" then
            alistUpdate files (_write_rh_interface nd.1 interface nd.2)
          else files
        let files3 := if interface.type == "ipv4_dhcp" then
            alistUpdate files2 (_write_rh_dhcp nd.1 interface.mac_address nd.2)
          else files2
        rhMetaLoop sys rest files3

def rhFallback (macs : List String) (existsRh : String → Bool) :
    List (String × String) → List (String × String) → List (String × String)
  | files, [] => files
  | files, (mac, iname) :: rest =>
    if existsRh iname then rhFallback macs existsRh files rest
    else if macs.contains mac then rhFallback macs existsRh files rest
    else rhFallback macs existsRh
      (alistUpdate files (_write_rh_dhcp iname mac false)) rest

def write_redhat_interfaces (interfaces : List (String × IfaceRec))
    (sys_interfaces : List (String × String)) (existsRh : String → Bool) :
    List (String × String) :=
  rhFallback (interfaces.map Prod.fst) existsRh
    (rhMetaLoop sys_interfaces (pySort idLe interfaces) [])
    (pySort nameLe sys_interfaces)

/-- finish_files of cmd.py, modelled as the ordered list of (path, content)
writes it performs: paths are visited in sorted order and an entry whose
content is empty is skipped.  The noop branch prints the very same
entries instead of writing them, so one emission list covers both. -/
def finish_files (files_to_write : List (String × String)) :
    List (String × String) :=
  (pySort strLe (files_to_write.map Prod.fst)).filterMap fun k =>
    match alistGet files_to_write k with
    | none => none
    | some content => if content == "" then none else some (k, content)

/-! Device prober.  A carrier read either yields the file text or raises
IOError with some errno; the reads a device would produce over time are
modelled as a function from the attempt index (0 = the initial check,
1..50 = the poll loop of interface_live). -/

inductive CarrierRead where
  | val (s : String)
  | ioerr (errno : Nat)

def is_interface_live (read : CarrierRead) : Except PyErr Bool :=
  match read with
  | .val s => .ok (pyStrip s == "1")
  | .ioerr e => if e = 22 then .ok false else .error (.ioError e)

def pollCarrier (carrier : Nat → CarrierRead) : Nat → Nat → Except PyErr Bool
  | _, 0 => .ok false
  | k, fuel + 1 =>
    match is_interface_live (carrier k) with
    | .error e => .error e
    | .ok true => .ok true
    | .ok false => pollCarrier carrier (k + 1) fuel

/-- interface_live of cmd.py: initial liveness check, then (unless noop)
bring the device up and poll the carrier at most 50 more times. -/
def interface_live (carrier : Nat → CarrierRead) (noop : Bool) :
    Except PyErr Bool :=
  match is_interface_live (carrier 0) with
  | .error e => .error e
  | .ok true => .ok true
  | .ok false => if noop then .ok false else pollCarrier carrier 1 50

structure SysDevice where
  name : String
  addr_assign_type : String
  address : String
  carrier : Nat → CarrierRead

def sysLoop (noop : Bool) :
    List SysDevice → List (String × String) → Except PyErr (List (String × String))
  | [], acc => .ok acc
  | d :: rest, acc =>
    if pyStrip d.addr_assign_type == "0" then
      match interface_live d.carrier noop with
      | .error e => .error e
      | .ok true => sysLoop noop rest (alistSet acc (pyStrip d.address) d.name)
      | .ok false => sysLoop noop rest acc
    else sysLoop noop rest acc

def get_sys_interfaces (devices : List SysDevice) (noop : Bool) :
    Except PyErr (List (String × String)) :=
  sysLoop noop devices []

/-! Interface normalizer: get_config_drive_interfaces of cmd.py. -/

structure NetworkDoc where
  networks : Option (List Dict)
  links : Option (List Dict)

def buildIfaces : List Dict → PyMap → Except PyErr PyMap
  | [], acc => .ok acc
  | network :: rest, acc =>
    match alistGet network "link" with
    | none => .error .keyError
    | some k => buildIfaces rest (alistSet acc k network)

def buildLinks : List Dict → PyMap → Except PyErr PyMap
  | [], acc => .ok acc
  | link :: rest, acc =>
    match alistGet link "id" with
    | none => .error .keyError
    | some k => buildLinks rest (alistSet acc k link)

/-- The mac_address normalization applied to every link in the first pass:
set mac_address from ethernet_mac_address if present, else from
vlan_mac_address (None if neither), then remove both originals. -/
def normalizeMac (link : Dict) : Dict :=
  let mac := (alistGet link "ethernet_mac_address").getD
    ((alistGet link "vlan_mac_address").getD PyVal.pynone)
  alistDel (alistDel (alistSet link "mac_address" mac)
    "ethernet_mac_address") "vlan_mac_address"

/-- First pass over tmp_links.values(): vlan links absorb a copy of their
parent link (the vlan link's own fields win on conflict), the parent id
is recorded for deletion, and every link gets its mac normalized.  The
loop iterates over the original key order while reading the current map
state, as the Python loop over live dict objects does. -/
def vlanLoop : List PyVal → PyMap → List PyVal → Except PyErr (PyMap × List PyVal)
  | [], links, dels => .ok (links, dels)
  | k :: rest, links, dels =>
    match alistGet links k with
    | none => .error .keyError
    | some link =>
      match alistGet link "type" with
      | none => .error .keyError
      | some ty =>
        if ty = PyVal.str "vlan" then
          match alistGet link "vlan_link" with
          | none => .error .keyError
          | some vl =>
            let parent := (alistGet links vl).getD []
            let merged := alistUpdate link (alistUpdate parent link)
            vlanLoop rest (alistSet links k (normalizeMac merged)) (dels ++ [vl])
        else
          vlanLoop rest (alistSet links k (normalizeMac link)) dels

def vlanPass (links : PyMap) : Except PyErr (PyMap × List PyVal) :=
  vlanLoop (links.map Prod.fst) links []

/-- The deletion loop over keys_to_del; del of a missing key raises. -/
def delKeys : PyMap → List PyVal → Except PyErr PyMap
  | links, [] => .ok links
  | links, k :: rest =>
    match alistGet links k with
    | none => .error .keyError
    | some _ => delKeys (alistDel links k) rest

/-- One step of the attachment loop: tmp_ifaces subscripted at link id
raises KeyError when no network references that link. -/
def attachStep (ifaces : PyMap) (link : Dict) : Except PyErr PyMap :=
  match alistGet link "id" with
  | none => .error .keyError
  | some idv =>
    match alistGet ifaces idv with
    | none => .error .keyError
    | some iface =>
      match alistGet link "mac_address" with
      | none => .error .keyError
      | some mac =>
        .ok (alistSet ifaces idv
          (match alistGet link "vlan_id" with
           | some v => alistSet (alistSet iface "mac_address" mac) "vlan_id" v
           | none => alistSet iface "mac_address" mac))

def attachPass : PyMap → PyMap → Except PyErr PyMap
  | [], ifaces => .ok ifaces
  | (_, link) :: rest, ifaces =>
    match attachStep ifaces link with
    | .error e => .error e
    | .ok ifaces2 => attachPass rest ifaces2

/-- The final loop: key the result by the lower-cased mac_address of each
network record; a missing mac_address raises KeyError, a non-string one
raises AttributeError on .lower(). -/
def finalPass : PyMap → List (String × Dict) → Except PyErr (List (String × Dict))
  | [], acc => .ok acc
  | (k, v) :: rest, acc =>
    match alistGet (alistSet v "link" k) "mac_address" with
    | none => .error .keyError
    | some (PyVal.str s) =>
      finalPass rest (alistSet acc (pyLower s) (alistSet v "link" k))
    | some _ => .error .attributeError

def get_config_drive_interfaces (net : NetworkDoc) :
    Except PyErr (List (String × Dict)) :=
  match net.networks, net.links with
  | some networks, some links =>
    (match buildIfaces networks [] with
     | .error e => .error e
     | .ok tmpIfaces =>
       match buildLinks links [] with
       | .error e => .error e
       | .ok tmpLinks =>
         match vlanPass tmpLinks with
         | .error e => .error e
         | .ok (links2, dels) =>
           match delKeys links2 dels with
           | .error e => .error e
           | .ok links3 =>
             match attachPass links3 tmpIfaces with
             | .error e => .error e
             | .ok ifaces2 => finalPass ifaces2 [])
  | _, _ => .ok []

/-- Lookup into the result of a renderer that can raise. -/
def exGet (e : Except PyErr (List (String × String))) (k : String) :
    Option String :=
  match e with
  | .ok files => alistGet files k
  | .error _ => none

/-! Concrete inputs used to evaluate the embedding on the scenarios the
claims single out. -/

def c1rec : IfaceRec :=
  ⟨"network0", "ipv4", "aa:bb:cc:dd:ee:01", "192.0.2.10", "255.255.255.0",
   none, [⟨"0.0.0.0", "0.0.0.0", "192.0.2.1"⟩]⟩

def c1interfaces : List (String × IfaceRec) := [("aa:bb:cc:dd:ee:01", c1rec)]

def c1sys : List (String × String) := [("aa:bb:cc:dd:ee:01", "eth0")]

def c1debContent : String :=
  "auto eth0\niface eth0 inet static\n    address 192.0.2.10\n    netmask 255.255.255.0\n    gateway 192.0.2.1\n"

def c1rhContent : String :=
  "# Automatically generated, do not edit\nDEVICE=eth0\nBOOTPROTO=static\nHWADDR=aa:bb:cc:dd:ee:01\nIPADDR=192.0.2.10\nNETMASK=255.255.255.0\nONBOOT=yes\nNM_CONTROLLED=no\nDEFROUTE=yes\nGATEWAY=192.0.2.1\n"

def c2rec1 : IfaceRec :=
  ⟨"a", "ipv4", "aa:bb:cc:dd:ee:01", "10.0.0.5", "255.255.255.0", none, []⟩

def c2recManual : IfaceRec :=
  ⟨"b", "manual", "aa:bb:cc:dd:ee:02", "203.0.113.5", "255.255.255.0", none, []⟩

def c3rec : IfaceRec :=
  ⟨"network0", "ipv4", "52:54:00:11:22:33", "10.0.0.5", "255.255.255.0",
   none, [⟨"0.0.0.0", "0.0.0.0", "10.0.0.1"⟩]⟩

def c5parent (mp np : String) : Dict :=
  [("id", .str "link0"), ("type", .str "phy"),
   ("ethernet_mac_address", .str mp), ("name", .str np)]

def c5vlan (mv nv : String) (t : Int) : Dict :=
  [("id", .str "link1"), ("type", .str "vlan"), ("vlan_link", .str "link0"),
   ("vlan_mac_address", .str mv), ("vlan_id", .int t), ("name", .str nv)]

def c5network : Dict :=
  [("id", .str "network0"), ("link", .str "link1"), ("type", .str "ipv4")]

def c5doc (mp mv np nv : String) (t : Int) : NetworkDoc :=
  ⟨some [c5network], some [c5parent mp np, c5vlan mv nv t]⟩

def c5parentAfter (mp np : String) : Dict :=
  [("id", .str "link0"), ("type", .str "phy"), ("name", .str np),
   ("mac_address", .str mp)]

def c5merged (mv nv : String) (t : Int) : Dict :=
  [("id", .str "link1"), ("type", .str "vlan"), ("vlan_link", .str "link0"),
   ("vlan_id", .int t), ("name", .str nv), ("mac_address", .str mv)]

def c5result (mv : String) (t : Int) : Dict :=
  [("id", .str "network0"), ("link", .str "link1"), ("type", .str "ipv4"),
   ("mac_address", .str mv), ("vlan_id", .int t)]

def c6dead : SysDevice := ⟨"eth2", "0", "aa:bb:cc:dd:ee:06", fun _ => .val "0"⟩

def c6live : SysDevice := ⟨"eth0", "0", "aa:bb:cc:dd:ee:07", fun _ => .val "1"⟩

def c7dev (e : Nat) : SysDevice := ⟨"eth0", "0", "aa:bb:cc:dd:ee:08", fun _ => .ioerr e⟩

def c9demo : List (String × String) := [("b", "x"), ("a", ""), ("c", "y")]

def c10link : Dict :=
  [("id", .str "link0"), ("type", .str "phys"),
   ("ethernet_mac_address", .str "aa:bb:cc:dd:ee:03")]

def c10doc : NetworkDoc := ⟨some [], some [c10link]⟩

def c10wlink : Dict :=
  [("id", .str "link9"), ("type", .str "phys"),
   ("mac_address", .str "aa:aa:aa:aa:aa:aa")]

def c10wnet : Dict := [("id", .str "network9"), ("link", .str "link9")]

def c10wifaces : PyMap := [(.str "link9", c10wnet)]

/-! Theorems. -/

/-- Claim C3: for the single ipv4 record with mac 52:54:00:11:22:33,
address 10.0.0.5, netmask 255.255.255.0 and a lone default route via
10.0.0.1, matched to physical device eth0, the Debian renderer's output
for the eth0.cfg path is exactly the five-line static stanza. -/
theorem glean_c3_exact_stanza :
    exGet (write_debian_interfaces [("52:54:00:11:22:33", c3rec)]
        [("52:54:00:11:22:33", "eth0")] (fun _ => false))
      "/etc/network/interfaces.d/eth0.cfg"
    = some "auto eth0\niface eth0 inet static\n    address 10.0.0.5\n    netmask 255.255.255.0\n    gateway 10.0.0.1\n" := by
  rfl

/-- Claim C8: when the networks key or the links key is absent from the
input document, get_config_drive_interfaces returns the empty mapping
instead of raising. -/
theorem glean_c8_missing_keys (net : NetworkDoc)
    (h : net.networks = none ∨ net.links = none) :
    get_config_drive_interfaces net = .ok [] := by
  cases net with
  | mk ns ls =>
    rcases h with h | h
    · simp only at h
      subst h
      cases ls <;> rfl
    · simp only at h
      subst h
      cases ns <;> rfl

theorem glean_c8_witness :
    get_config_drive_interfaces ⟨none, some [c10link]⟩ = .ok [] :=
  glean_c8_missing_keys ⟨none, some [c10link]⟩ (Or.inl rfl)

/-- Claim C2 is contradicted by the code: the Debian renderer does not
skip a record of unrecognized kind.  The link_type local is only
assigned in the ipv6/ipv4 branches, so when the first rendered record
has kind "manual" the renderer raises UnboundLocalError, and when an
earlier record already set link_type, the unknown-kind record is
rendered as a static stanza with the stale link type instead of being
skipped. -/
theorem glean_c2_unknown_kind_bug :
    write_debian_interfaces [("aa:bb:cc:dd:ee:02", c2recManual)]
        [("aa:bb:cc:dd:ee:02", "eth0")] (fun _ => false)
      = .error .unboundLocalError
    ∧ exGet (write_debian_interfaces
          [("aa:bb:cc:dd:ee:01", c2rec1), ("aa:bb:cc:dd:ee:02", c2recManual)]
          [("aa:bb:cc:dd:ee:01", "eth0"), ("aa:bb:cc:dd:ee:02", "eth1")]
          (fun _ => false))
        "/etc/network/interfaces.d/eth1.cfg"
      = some "auto eth1\niface eth1 inet static\n    address 203.0.113.5\n    netmask 255.255.255.0\n" :=
  ⟨rfl, rfl⟩

/-- Claim C1 as stated is false on the code: with a pre-existing native
config file for eth0 (the existence oracle answers true for every name)
and metadata matching eth0's mac, both renderers still emit a file for
eth0; only the DHCP fallback loop consults the existence check. -/
theorem glean_c1_counterexample :
    exGet (write_debian_interfaces c1interfaces c1sys (fun _ => true))
        "/etc/network/interfaces.d/eth0.cfg" = some c1debContent
    ∧ alistGet (write_redhat_interfaces c1interfaces c1sys (fun _ => true))
        "/etc/sysconfig/network-scripts/ifcfg-eth0" = some c1rhContent :=
  ⟨rfl, rfl⟩

/-- Claim C7: a carrier read that raises IOError with errno other than 22
propagates out of the liveness check, interface_live and
get_sys_interfaces, aborting the run; errno 22 merely reports the
device as not live. -/
theorem glean_c7_errno (e : Nat) (he : e ≠ 22) (noop : Bool) :
    is_interface_live (.ioerr e) = .error (.ioError e)
    ∧ is_interface_live (.ioerr 22) = .ok false
    ∧ interface_live (fun _ => .ioerr e) noop = .error (.ioError e)
    ∧ get_sys_interfaces [c7dev e] noop = .error (.ioError e) := by
  have h1 : is_interface_live (.ioerr e) = .error (.ioError e) := by
    simp [is_interface_live, he]
  have h2 : interface_live (fun _ => CarrierRead.ioerr e) noop
      = .error (.ioError e) := by
    simp [interface_live, h1]
  have h3 : (pyStrip "0" == "0") = true := by decide
  refine ⟨h1, by simp [is_interface_live], h2, ?_⟩
  simp [get_sys_interfaces, sysLoop, c7dev, h3, h2]

theorem glean_c7_witness :
    is_interface_live (.ioerr 13) = .error (.ioError 13)
    ∧ is_interface_live (.ioerr 22) = .ok false
    ∧ interface_live (fun _ => .ioerr 13) false = .error (.ioError 13)
    ∧ get_sys_interfaces [c7dev 13] false = .error (.ioError 13) :=
  glean_c7_errno 13 (by decide) false

theorem pollCarrier_all_false (c : Nat → CarrierRead) :
    ∀ fuel k,
      (∀ j, k ≤ j → j < k + fuel → is_interface_live (c j) = .ok false) →
      pollCarrier c k fuel = .ok false := by
  intro fuel
  induction fuel with
  | zero => intro k _; rfl
  | succ n ih =>
    intro k h
    have h0 : is_interface_live (c k) = .ok false := h k (Nat.le_refl k) (by omega)
    simp only [pollCarrier, h0]
    exact ih (k + 1) (fun j h1 h2 => h j (by omega) (by omega))

theorem sysLoop_skip (d : SysDevice) (post : List SysDevice)
    (hd : interface_live d.carrier false = .ok false) :
    ∀ pre acc, sysLoop false (pre ++ d :: post) acc
      = sysLoop false (pre ++ post) acc := by
  intro pre
  induction pre with
  | nil =>
    intro acc
    by_cases hc : (pyStrip d.addr_assign_type == "0") = true
    · simp [sysLoop, hc, hd]
    · simp [sysLoop, hc]
  | cons p ps ih =>
    intro acc
    simp only [List.cons_append]
    by_cases hc : (pyStrip p.addr_assign_type == "0") = true
    · cases hl : interface_live p.carrier false with
      | error e => simp [sysLoop, hc, hl]
      | ok b => cases b <;> simp [sysLoop, hc, hl, ih]
    · simp [sysLoop, hc, ih]

/-- Claim C6: a candidate device that is not initially live (and not in
dry-run mode) is brought up and polled at most 50 more times; the
result of interface_live only depends on the initial read and those 50
polls, a device whose carrier never reads live yields .ok false rather
than an error, and get_sys_interfaces omits it from the mapping while
processing the remaining devices unchanged. -/
theorem glean_c6_poll_bound (d : SysDevice) (pre post : List SysDevice)
    (h : ∀ k, k ≤ 50 → is_interface_live (d.carrier k) = .ok false) :
    interface_live d.carrier false = .ok false
    ∧ (∀ c2 : Nat → CarrierRead, (∀ k, k ≤ 50 → c2 k = d.carrier k) →
        interface_live c2 false = .ok false)
    ∧ get_sys_interfaces (pre ++ d :: post) false
        = get_sys_interfaces (pre ++ post) false := by
  have main : ∀ c2 : Nat → CarrierRead,
      (∀ k, k ≤ 50 → is_interface_live (c2 k) = .ok false) →
      interface_live c2 false = .ok false := by
    intro c2 hc
    have h0 := hc 0 (by omega)
    have hp : pollCarrier c2 1 50 = .ok false :=
      pollCarrier_all_false c2 50 1 (fun j h1 h2 => hc j (by omega))
    simp [interface_live, h0, hp]
  have first := main d.carrier h
  refine ⟨first, fun c2 hag => main c2 (fun k hk => ?_), ?_⟩
  · rw [hag k hk]; exact h k hk
  · exact sysLoop_skip d post first pre []

theorem glean_c6_witness :
    interface_live c6dead.carrier false = .ok false
    ∧ get_sys_interfaces [c6dead, c6live] false
        = get_sys_interfaces [c6live] false := by
  have H := glean_c6_poll_bound c6dead [] [c6live] (fun k _ => rfl)
  exact ⟨H.1, H.2.2⟩

theorem chLe_total : ∀ a b : List Char, chLe a b = true ∨ chLe b a = true := by
  intro a
  induction a with
  | nil => intro b; exact Or.inl rfl
  | cons x xs ih =>
    intro b
    cases b with
    | nil => exact Or.inr rfl
    | cons y ys =>
      by_cases hxy : x = y
      · subst hxy
        rcases ih ys with h | h
        · left; simp [chLe, h]
        · right; simp [chLe, h]
      · rcases lt_or_gt_of_ne hxy with h | h
        · left; simp [chLe, hxy, h]
        · right; simp [chLe, Ne.symm hxy, h]

theorem chLe_trans :
    ∀ a b c : List Char, chLe a b = true → chLe b c = true →
      chLe a c = true := by
  intro a
  induction a with
  | nil => intro b c _ _; rfl
  | cons x xs ih =>
    intro b c h1 h2
    cases b with
    | nil => simp [chLe] at h1
    | cons y ys =>
      cases c with
      | nil => simp [chLe] at h2
      | cons z zs =>
        by_cases hxy : x = y
        · subst hxy
          simp only [chLe, if_pos rfl] at h1
          by_cases hyz : x = z
          · subst hyz
            simp only [chLe, if_pos rfl] at h2 ⊢
            exact ih ys zs h1 h2
          · simp [chLe, hyz] at h2 ⊢
            exact h2
        · simp [chLe, hxy] at h1
          by_cases hyz : y = z
          · subst hyz
            simp [chLe, hxy]
            exact h1
          · simp [chLe, hyz] at h2
            have hxz : x < z := lt_trans h1 h2
            simp [chLe, ne_of_lt hxz]
            exact hxz

theorem strLe_total (a b : String) : strLe a b = true ∨ strLe b a = true :=
  chLe_total a.data b.data

theorem strLe_trans (a b c : String) (h1 : strLe a b = true)
    (h2 : strLe b c = true) : strLe a c = true :=
  chLe_trans a.data b.data c.data h1 h2

theorem pyInsert_mem (le : α → α → Bool) (a : α) :
    ∀ l (x : α), x ∈ pyInsert le a l ↔ x = a ∨ x ∈ l := by
  intro l
  induction l with
  | nil => intro x; simp [pyInsert]
  | cons b bs ih =>
    intro x
    by_cases h : le a b = true
    · simp only [pyInsert, if_pos h, List.mem_cons]
    · simp only [pyInsert, if_neg h, List.mem_cons, ih]
      tauto

theorem pyInsert_pairwise (le : α → α → Bool)
    (htot : ∀ a b, le a b = true ∨ le b a = true)
    (htrans : ∀ a b c, le a b = true → le b c = true → le a c = true)
    (a : α) :
    ∀ l, l.Pairwise (fun x y => le x y = true) →
      (pyInsert le a l).Pairwise (fun x y => le x y = true) := by
  intro l
  induction l with
  | nil => intro _; simp [pyInsert]
  | cons b bs ih =>
    intro hp
    rcases List.pairwise_cons.mp hp with ⟨hb, hbs⟩
    by_cases h : le a b = true
    · simp only [pyInsert, if_pos h]
      refine List.pairwise_cons.mpr ⟨?_, hp⟩
      intro y hy
      rcases List.mem_cons.mp hy with rfl | hy2
      · exact h
      · exact htrans a b y h (hb y hy2)
    · have hba : le b a = true := (htot a b).resolve_left h
      simp only [pyInsert, if_neg h]
      refine List.pairwise_cons.mpr ⟨?_, ih hbs⟩
      intro y hy
      rcases (pyInsert_mem le a bs y).mp hy with rfl | hy2
      · exact hba
      · exact hb y hy2

theorem pySort_pairwise (le : α → α → Bool)
    (htot : ∀ a b, le a b = true ∨ le b a = true)
    (htrans : ∀ a b c, le a b = true → le b c = true → le a c = true) :
    ∀ l : List α, (pySort le l).Pairwise (fun x y => le x y = true) := by
  intro l
  induction l with
  | nil => simp [pySort]
  | cons a as ih => exact pyInsert_pairwise le htot htrans a (pySort le as) ih

theorem filterMap_keys_pairwise (f : String → Option (String × String))
    (hf : ∀ k p, f k = some p → p.1 = k) :
    ∀ l : List String, l.Pairwise (fun a b => strLe a b = true) →
      (l.filterMap f).Pairwise (fun p q => strLe p.1 q.1 = true) := by
  intro l
  induction l with
  | nil => intro _; simp
  | cons a as ih =>
    intro hp
    rcases List.pairwise_cons.mp hp with ⟨ha, has⟩
    cases hfa : f a with
    | none => simpa [List.filterMap_cons, hfa] using ih has
    | some p =>
      simp only [List.filterMap_cons, hfa]
      refine List.pairwise_cons.mpr ⟨?_, ih has⟩
      intro q hq
      rcases List.mem_filterMap.mp hq with ⟨k, hk, hfk⟩
      rw [hf a p hfa, hf k q hfk]
      exact ha k hk

/-- Claim C9: finish_files emits its entries in lexically sorted path
order, and every emitted entry carries the (non-empty) content stored
for its path; an entry whose content is empty is never emitted. -/
theorem glean_c9_writer (files : List (String × String)) :
    (finish_files files).Pairwise (fun p q => strLe p.1 q.1 = true)
    ∧ ∀ p ∈ finish_files files, alistGet files p.1 = some p.2 ∧ p.2 ≠ "" := by
  constructor
  · apply filterMap_keys_pairwise
    · intro k p hf
      cases hg : alistGet files k with
      | none => simp [hg] at hf
      | some c =>
        by_cases hc : c = ""
        · simp [hg, hc] at hf
        · simp [hg, hc] at hf
          rw [← hf]
    · exact pySort_pairwise strLe strLe_total strLe_trans _
  · intro p hp
    rcases List.mem_filterMap.mp hp with ⟨k, hk, hfk⟩
    cases hg : alistGet files k with
    | none => simp [hg] at hfk
    | some c =>
      by_cases hc : c = ""
      · simp [hg, hc] at hfk
      · simp [hg, hc] at hfk
        rw [← hfk]
        exact ⟨hg, hc⟩

theorem chPref_append_true :
    ∀ p s r : List Char, chPref p s = true → chPref p (s ++ r) = true := by
  intro p
  induction p with
  | nil => intro s r _; rfl
  | cons a as ih =>
    intro s r h
    cases s with
    | nil => simp [chPref] at h
    | cons b bs =>
      simp only [chPref, Bool.and_eq_true] at h
      simp only [List.cons_append, chPref, Bool.and_eq_true]
      exact ⟨h.1, ih bs r h.2⟩

theorem chPref_take_of_append :
    ∀ s p r : List Char, chPref p (s ++ r) = true →
      chPref (p.take s.length) s = true := by
  intro s
  induction s with
  | nil => intro p r _; rfl
  | cons b bs ih =>
    intro p r h
    cases p with
    | nil => rfl
    | cons a as =>
      simp only [List.cons_append, chPref, Bool.and_eq_true] at h
      simp only [List.length_cons, List.take_succ_cons, chPref, Bool.and_eq_true]
      exact ⟨h.1, ih as r h.2⟩

/-- A needle that matches the literal head of a line matches the line. -/
theorem sw_lit_true (p lit r : String) (h : chPref p.data lit.data = true) :
    strStartsWith (lit ++ r) p = true := by
  unfold strStartsWith
  rw [String.data_append]
  exact chPref_append_true p.data lit.data r.data h

/-- A needle that mismatches within the literal head of a line cannot
match the line, whatever follows the head. -/
theorem sw_lit_false (p lit r : String)
    (h : chPref (p.data.take lit.data.length) lit.data = false) :
    strStartsWith (lit ++ r) p = false := by
  unfold strStartsWith
  rw [String.data_append]
  cases hc : chPref p.data (lit.data ++ r.data) with
  | false => rfl
  | true => rw [chPref_take_of_append lit.data p.data r.data hc] at h; cases h

theorem sw_gw_gw (g : String) :
    strStartsWith ("    gateway " ++ (g ++ "\n")) "    gateway " = true :=
  sw_lit_true _ _ _ (by decide)

theorem sw_gw_pu (g : String) :
    strStartsWith ("    gateway " ++ (g ++ "\n")) "    post-up" = false :=
  sw_lit_false _ _ _ (by decide)

theorem sw_pu_gw (a b c : String) :
    strStartsWith (post_up a b c) "    gateway " = false :=
  sw_lit_false _ _ _ (by decide)

theorem sw_pu_pu (a b c : String) :
    strStartsWith (post_up a b c) "    post-up" = true :=
  sw_lit_true _ _ _ (by decide)

theorem sw_pd_gw (a b c : String) :
    strStartsWith (pre_down a b c) "    gateway " = false :=
  sw_lit_false _ _ _ (by decide)

theorem sw_pd_pu (a b c : String) :
    strStartsWith (pre_down a b c) "    post-up" = false :=
  sw_lit_false _ _ _ (by decide)

theorem debianRouteLines_count_gw (routes : List Route) :
    (debianRouteLines routes).countP (fun l => strStartsWith l "    gateway ")
      = routes.countP isDefaultRoute := by
  induction routes with
  | nil => rfl
  | cons r rest ih =>
    have hstep : debianRouteLines (r :: rest)
        = (if isDefaultRoute r then ["    gateway " ++ (r.gateway ++ "\n")]
           else [post_up r.network r.netmask r.gateway,
                 pre_down r.network r.netmask r.gateway])
          ++ debianRouteLines rest := rfl
    cases hd : isDefaultRoute r with
    | true =>
      rw [hstep, if_pos hd, List.countP_append, ih]
      simp [List.countP_cons, sw_gw_gw, hd]
      omega
    | false =>
      rw [hstep, if_neg (by simp [hd]), List.countP_append, ih]
      simp [List.countP_cons, sw_pu_gw, sw_pd_gw, hd]

theorem debianRouteLines_count_pu (routes : List Route) :
    (debianRouteLines routes).countP (fun l => strStartsWith l "    post-up")
      = routes.countP (fun r => !isDefaultRoute r) := by
  induction routes with
  | nil => rfl
  | cons r rest ih =>
    have hstep : debianRouteLines (r :: rest)
        = (if isDefaultRoute r then ["    gateway " ++ (r.gateway ++ "\n")]
           else [post_up r.network r.netmask r.gateway,
                 pre_down r.network r.netmask r.gateway])
          ++ debianRouteLines rest := rfl
    cases hd : isDefaultRoute r with
    | true =>
      rw [hstep, if_pos hd, List.countP_append, ih]
      simp [List.countP_cons, sw_gw_pu, hd]
    | false =>
      rw [hstep, if_neg (by simp [hd]), List.countP_append, ih]
      simp [List.countP_cons, sw_pu_pu, sw_pd_pu, hd]
      omega

theorem defrouteLines_count_gw (l : List Route) :
    (l.flatMap fun r => ["DEFROUTE=yes\n", "GATEWAY=" ++ (r.gateway ++ "\n")]).countP
        (fun s => strStartsWith s "GATEWAY=") = l.length := by
  induction l with
  | nil => rfl
  | cons r rest ih =>
    have h1 : strStartsWith "DEFROUTE=yes\n" "GATEWAY=" = false := by decide
    have h2 : strStartsWith ("GATEWAY=" ++ (r.gateway ++ "\n")) "GATEWAY=" = true :=
      sw_lit_true _ _ _ (by decide)
    rw [List.flatMap_cons, List.countP_append, ih]
    simp [List.countP_cons, h1, h2]
    omega

theorem defrouteLines_count_dr (l : List Route) :
    (l.flatMap fun r => ["DEFROUTE=yes\n", "GATEWAY=" ++ (r.gateway ++ "\n")]).countP
        (fun s => strStartsWith s "DEFROUTE=") = l.length := by
  induction l with
  | nil => rfl
  | cons r rest ih =>
    have h1 : strStartsWith "DEFROUTE=yes\n" "DEFROUTE=" = true := by decide
    have h2 : strStartsWith ("GATEWAY=" ++ (r.gateway ++ "\n")) "DEFROUTE=" = false :=
      sw_lit_false _ _ _ (by decide)
    rw [List.flatMap_cons, List.countP_append, ih]
    simp [List.countP_cons, h1, h2]
    omega

theorem rhIfaceLines_count_gw (name : String) (interface : IfaceRec) (hv : Bool) :
    (rhIfaceLines name interface hv).countP (fun l => strStartsWith l "GATEWAY=")
      = (interface.routes.filter isDefaultRoute).length := by
  have h1 : strStartsWith "# Automatically generated, do not edit\n" "GATEWAY=" = false := by decide
  have h2 : strStartsWith ("DEVICE=" ++ (name ++ "\n")) "GATEWAY=" = false :=
    sw_lit_false _ _ _ (by decide)
  have h3 : strStartsWith "BOOTPROTO=static\n" "GATEWAY=" = false := by decide
  have h4 : strStartsWith ("HWADDR=" ++ (interface.mac_address ++ "\n")) "GATEWAY=" = false :=
    sw_lit_false _ _ _ (by decide)
  have h5 : strStartsWith ("IPADDR=" ++ (interface.ip_address ++ "\n")) "GATEWAY=" = false :=
    sw_lit_false _ _ _ (by decide)
  have h6 : strStartsWith ("NETMASK=" ++ (interface.netmask ++ "\n")) "GATEWAY=" = false :=
    sw_lit_false _ _ _ (by decide)
  have h7 : strStartsWith "ONBOOT=yes\n" "GATEWAY=" = false := by decide
  have h8 : strStartsWith "NM_CONTROLLED=no\n" "GATEWAY=" = false := by decide
  have h9 : strStartsWith "VLAN=yes\n" "GATEWAY=" = false := by decide
  cases hv <;>
    simp [rhIfaceLines, List.countP_append, List.countP_cons, h1, h2, h3, h4,
      h5, h6, h7, h8, h9, defrouteLines_count_gw]

theorem rhIfaceLines_count_dr (name : String) (interface : IfaceRec) (hv : Bool) :
    (rhIfaceLines name interface hv).countP (fun l => strStartsWith l "DEFROUTE=")
      = (interface.routes.filter isDefaultRoute).length := by
  have h1 : strStartsWith "# Automatically generated, do not edit\n" "DEFROUTE=" = false := by decide
  have h2 : strStartsWith ("DEVICE=" ++ (name ++ "\n")) "DEFROUTE=" = false :=
    sw_lit_false _ _ _ (by decide)
  have h3 : strStartsWith "BOOTPROTO=static\n" "DEFROUTE=" = false := by decide
  have h4 : strStartsWith ("HWADDR=" ++ (interface.mac_address ++ "\n")) "DEFROUTE=" = false :=
    sw_lit_false _ _ _ (by decide)
  have h5 : strStartsWith ("IPADDR=" ++ (interface.ip_address ++ "\n")) "DEFROUTE=" = false :=
    sw_lit_false _ _ _ (by decide)
  have h6 : strStartsWith ("NETMASK=" ++ (interface.netmask ++ "\n")) "DEFROUTE=" = false :=
    sw_lit_false _ _ _ (by decide)
  have h7 : strStartsWith "ONBOOT=yes\n" "DEFROUTE=" = false := by decide
  have h8 : strStartsWith "NM_CONTROLLED=no\n" "DEFROUTE=" = false := by decide
  have h9 : strStartsWith "VLAN=yes\n" "DEFROUTE=" = false := by decide
  cases hv <;>
    simp [rhIfaceLines, List.countP_append, List.countP_cons, h1, h2, h3, h4,
      h5, h6, h7, h8, h9, defrouteLines_count_dr]

theorem rhRouteFileLines_length :
    ∀ (l : List Route) (x : Nat), (rhRouteFileLines x l).length = 3 * l.length := by
  intro l
  induction l with
  | nil => intro x; rfl
  | cons r rest ih =>
    intro x
    simp only [rhRouteFileLines, List.length_cons, ih, List.length_cons]
    omega

/-- Claim C4: a record whose route list contains exactly one default
route gets exactly one gateway directive per dialect — one Debian
gateway line and no post-up entry for it, one DEFROUTE=yes and one
GATEWAY= line in the RedHat ifcfg content — and the RedHat route- file
holds entries only for the non-default routes (three numbered lines
each). -/
theorem glean_c4_default_route (interface : IfaceRec) (name : String)
    (hv : Bool) (h : interface.routes.countP isDefaultRoute = 1) :
    (debianRouteLines interface.routes).countP
        (fun l => strStartsWith l "    gateway ") = 1
    ∧ (debianRouteLines interface.routes).countP
        (fun l => strStartsWith l "    post-up")
      = interface.routes.countP (fun r => !isDefaultRoute r)
    ∧ (rhIfaceLines name interface hv).countP
        (fun l => strStartsWith l "GATEWAY=") = 1
    ∧ (rhIfaceLines name interface hv).countP
        (fun l => strStartsWith l "DEFROUTE=") = 1
    ∧ (rhRouteFileLines 0 (interface.routes.filter fun r => !isDefaultRoute r)).length
      = 3 * interface.routes.countP (fun r => !isDefaultRoute r) := by
  have hlen : (interface.routes.filter isDefaultRoute).length = 1 := by
    rw [← List.countP_eq_length_filter]
    exact h
  refine ⟨?_, debianRouteLines_count_pu interface.routes, ?_, ?_, ?_⟩
  · rw [debianRouteLines_count_gw]; exact h
  · rw [rhIfaceLines_count_gw]; exact hlen
  · rw [rhIfaceLines_count_dr]; exact hlen
  · rw [rhRouteFileLines_length, List.countP_eq_length_filter]

theorem glean_c4_witness :
    (debianRouteLines c1rec.routes).countP
        (fun l => strStartsWith l "    gateway ") = 1
    ∧ (debianRouteLines c1rec.routes).countP
        (fun l => strStartsWith l "    post-up")
      = c1rec.routes.countP (fun r => !isDefaultRoute r)
    ∧ (rhIfaceLines "eth0" c1rec false).countP
        (fun l => strStartsWith l "GATEWAY=") = 1
    ∧ (rhIfaceLines "eth0" c1rec false).countP
        (fun l => strStartsWith l "DEFROUTE=") = 1
    ∧ (rhRouteFileLines 0 (c1rec.routes.filter fun r => !isDefaultRoute r)).length
      = 3 * c1rec.routes.countP (fun r => !isDefaultRoute r) :=
  glean_c4_default_route c1rec "eth0" false (by decide)

theorem glean_c9_witness :
    (finish_files c9demo).Pairwise (fun p q => strLe p.1 q.1 = true)
    ∧ (alistGet c9demo "b" = some "x" ∧ "x" ≠ "") :=
  ⟨(glean_c9_writer c9demo).1,
   (glean_c9_writer c9demo).2 ("b", "x") (by decide)⟩

theorem alistGet_alistSet_ne [DecidableEq κ] (k1 k : κ) (v : α) (h : k1 ≠ k) :
    ∀ m : List (κ × α), alistGet (alistSet m k v) k1 = alistGet m k1 := by
  intro m
  induction m with
  | nil => simp [alistSet, alistGet, Ne.symm h]
  | cons p rest ih =>
    obtain ⟨k2, v2⟩ := p
    by_cases h2 : k2 = k
    · subst h2
      simp [alistSet, alistGet, Ne.symm h]
    · simp [alistSet, alistGet, h2, ih]

theorem debianIfacePath_inj (a b : String)
    (h : debianIfacePath a = debianIfacePath b) : a = b := by
  have hd := congrArg String.data h
  simp only [debianIfacePath, String.data_append] at hd
  exact String.ext (List.append_cancel_right (List.append_cancel_left hd))

theorem rhIfcfgPath_inj (a b : String)
    (h : rhIfcfgPath a = rhIfcfgPath b) : a = b := by
  have hd := congrArg String.data h
  simp only [rhIfcfgPath, String.data_append] at hd
  exact String.ext (List.append_cancel_left hd)

theorem debianFallback_none (macs : List String) (existsF : String → Bool)
    (name : String) (hex : existsF name = true) :
    ∀ (l files : List (String × String)),
      alistGet files (debianIfacePath name) = none →
      alistGet (debianFallback macs existsF files l) (debianIfacePath name)
        = none := by
  intro l
  induction l with
  | nil => intro files hf; exact hf
  | cons p rest ih =>
    obtain ⟨mac, iname⟩ := p
    intro files hf
    by_cases he : existsF iname = true
    · simp only [debianFallback]
      rw [if_pos he]
      exact ih files hf
    · by_cases hm : macs.contains mac = true
      · simp only [debianFallback]
        rw [if_neg he, if_pos hm]
        exact ih files hf
      · simp only [debianFallback]
        rw [if_neg he, if_neg hm]
        apply ih
        rw [alistGet_alistSet_ne]
        · exact hf
        · intro heq
          exact he (debianIfacePath_inj name iname heq ▸ hex)

theorem rhFallback_none (macs : List String) (existsF : String → Bool)
    (name : String) (hex : existsF name = true) :
    ∀ (l files : List (String × String)),
      alistGet files (rhIfcfgPath name) = none →
      alistGet (rhFallback macs existsF files l) (rhIfcfgPath name) = none := by
  intro l
  induction l with
  | nil => intro files hf; exact hf
  | cons p rest ih =>
    obtain ⟨mac, iname⟩ := p
    intro files hf
    by_cases he : existsF iname = true
    · simp only [rhFallback]
      rw [if_pos he]
      exact ih files hf
    · by_cases hm : macs.contains mac = true
      · simp only [rhFallback]
        rw [if_neg he, if_pos hm]
        exact ih files hf
      · simp only [rhFallback]
        rw [if_neg he, if_neg hm]
        apply ih
        have hstep : alistGet (alistUpdate files (_write_rh_dhcp iname mac false))
            (rhIfcfgPath name) = alistGet files (rhIfcfgPath name) := by
          show alistGet (alistSet files (rhIfcfgPath iname) _) (rhIfcfgPath name)
            = alistGet files (rhIfcfgPath name)
          apply alistGet_alistSet_ne
          intro heq
          exact he (rhIfcfgPath_inj name iname heq ▸ hex)
        rw [hstep]
        exact hf

/-- Claim C1 amended: a pre-existing native config file for a device name
suppresses only the DHCP fallback stanza for that device; a
metadata-matched record is still rendered (and would overwrite the
file).  The first two conjuncts show neither fallback loop ever emits
the suppressed device's path; the last two show both renderers still
emit the metadata-backed file for eth0 even though the existence oracle
reports a pre-existing file for every name. -/
theorem glean_c1_amended (macs : List String) (existsF : String → Bool)
    (files files2 sysList : List (String × String)) (name : String)
    (hex : existsF name = true)
    (hd : alistGet files (debianIfacePath name) = none)
    (hr : alistGet files2 (rhIfcfgPath name) = none) :
    alistGet (debianFallback macs existsF files sysList)
        (debianIfacePath name) = none
    ∧ alistGet (rhFallback macs existsF files2 sysList)
        (rhIfcfgPath name) = none
    ∧ exGet (write_debian_interfaces c1interfaces c1sys (fun _ => true))
        (debianIfacePath "eth0") = some c1debContent
    ∧ alistGet (write_redhat_interfaces c1interfaces c1sys (fun _ => true))
        (rhIfcfgPath "eth0") = some c1rhContent :=
  ⟨debianFallback_none macs existsF name hex sysList files hd,
   rhFallback_none macs existsF name hex sysList files2 hr, rfl, rfl⟩

theorem glean_c1_witness :
    alistGet (debianFallback [] (fun _ => true) [] [("m", "ethZ")])
        (debianIfacePath "ethZ") = none
    ∧ alistGet (rhFallback [] (fun _ => true) [] [("m", "ethZ")])
        (rhIfcfgPath "ethZ") = none
    ∧ exGet (write_debian_interfaces c1interfaces c1sys (fun _ => true))
        (debianIfacePath "eth0") = some c1debContent
    ∧ alistGet (write_redhat_interfaces c1interfaces c1sys (fun _ => true))
        (rhIfcfgPath "eth0") = some c1rhContent :=
  glean_c1_amended [] (fun _ => true) [] [] [("m", "ethZ")] "ethZ" rfl rfl rfl

theorem alistSet_keys [DecidableEq κ] (k : κ) (v : α) :
    ∀ (m : List (κ × α)) (k2 : κ), k2 ∈ (alistSet m k v).map Prod.fst →
      k2 ∈ m.map Prod.fst ∨ k2 = k := by
  intro m
  induction m with
  | nil =>
    intro k2 h
    simp [alistSet] at h
    exact Or.inr h
  | cons p rest ih =>
    obtain ⟨k0, v0⟩ := p
    intro k2 h
    by_cases h0 : k0 = k
    · left
      simpa [alistSet, h0] using h
    · have h2 : k2 = k0 ∨ k2 ∈ (alistSet rest k v).map Prod.fst := by
        simpa [alistSet, h0] using h
      rcases h2 with h2 | h2
      · left; simp [h2]
      · rcases ih k2 h2 with h3 | h3
        · left; simp [h3]
        · right; exact h3

theorem finalPass_keys :
    ∀ (l : PyMap) (acc res : List (String × Dict)),
      finalPass l acc = .ok res →
      ∀ k ∈ res.map Prod.fst,
        k ∈ acc.map Prod.fst ∨ ∃ s : String, k = pyLower s := by
  intro l
  induction l with
  | nil =>
    intro acc res h k hk
    simp only [finalPass] at h
    injection h with h2
    subst h2
    exact Or.inl hk
  | cons p rest ih =>
    obtain ⟨k0, v0⟩ := p
    intro acc res h k hk
    cases hmac : alistGet (alistSet v0 "link" k0) "mac_address" with
    | none =>
      simp only [finalPass, hmac] at h
      exact Except.noConfusion h
    | some val =>
      cases val with
      | str s =>
        simp only [finalPass, hmac] at h
        rcases ih _ res h k hk with hin | hlow
        · rcases alistSet_keys (pyLower s) (alistSet v0 "link" k0) acc k hin with
            h2 | h2
          · exact Or.inl h2
          · exact Or.inr ⟨s, h2⟩
        · exact Or.inr hlow
      | int n =>
        simp only [finalPass, hmac] at h
        exact Except.noConfusion h
      | pynone =>
        simp only [finalPass, hmac] at h
        exact Except.noConfusion h
      | obj n =>
        simp only [finalPass, hmac] at h
        exact Except.noConfusion h

theorem get_config_keys_lower (net : NetworkDoc) (d : List (String × Dict))
    (h : get_config_drive_interfaces net = .ok d) :
    ∀ k ∈ d.map Prod.fst, ∃ s : String, k = pyLower s := by
  obtain ⟨ns, ls⟩ := net
  cases ns with
  | none =>
    cases ls with
    | none =>
      simp only [get_config_drive_interfaces] at h
      injection h with h2
      subst h2
      intro k hk
      simp at hk
    | some l =>
      simp only [get_config_drive_interfaces] at h
      injection h with h2
      subst h2
      intro k hk
      simp at hk
  | some networks =>
    cases ls with
    | none =>
      simp only [get_config_drive_interfaces] at h
      injection h with h2
      subst h2
      intro k hk
      simp at hk
    | some links =>
      simp only [get_config_drive_interfaces] at h
      split at h
      next e heq => exact Except.noConfusion h
      next ti heq =>
        split at h
        next e heq2 => exact Except.noConfusion h
        next tl heq2 =>
          split at h
          next e heq3 => exact Except.noConfusion h
          next links2 dels heq3 =>
            split at h
            next e heq4 => exact Except.noConfusion h
            next l3 heq4 =>
              split at h
              next e heq5 => exact Except.noConfusion h
              next if2 heq5 =>
                intro k hk
                rcases finalPass_keys if2 [] d h k hk with hin | hlow
                · simp at hin
                · exact hlow

set_option maxHeartbeats 2000000 in
/-- Claim C5: for a document with a parent link (link0, ethernet mac mp)
and a vlan link (link1, vlan mac mv, vlan_id t) referencing it, plus a
network on the vlan link: the merged vlan record keeps the vlan link's
values on conflicting keys (here "name" is nv, not np), its mac_address
comes from the present vlan_mac_address, the parent-only link is
removed before attachment, the final mapping is keyed solely by the
lower-cased vlan mac (no entry under the parent's mac), and in general
every key of any result mapping is a lower-cased string. -/
theorem glean_c5_vlan_merge (mp mv np nv : String) (t : Int)
    (hmac : pyLower mp ≠ pyLower mv) :
    vlanPass [(.str "link0", c5parent mp np), (.str "link1", c5vlan mv nv t)]
      = .ok ([(.str "link0", c5parentAfter mp np),
              (.str "link1", c5merged mv nv t)], [.str "link0"])
    ∧ delKeys [(.str "link0", c5parentAfter mp np),
               (.str "link1", c5merged mv nv t)] [.str "link0"]
        = .ok [(.str "link1", c5merged mv nv t)]
    ∧ alistGet (c5merged mv nv t) "name" = some (.str nv)
    ∧ alistGet (c5merged mv nv t) "mac_address" = some (.str mv)
    ∧ get_config_drive_interfaces (c5doc mp mv np nv t)
        = .ok [(pyLower mv, c5result mv t)]
    ∧ alistGet [(pyLower mv, c5result mv t)] (pyLower mp) = none
    ∧ ∀ net d, get_config_drive_interfaces net = .ok d →
        ∀ k ∈ d.map Prod.fst, ∃ s : String, k = pyLower s := by
  have h1 : buildIfaces [c5network] [] = .ok [(.str "link1", c5network)] := rfl
  have h2 : buildLinks [c5parent mp np, c5vlan mv nv t] []
      = .ok [(.str "link0", c5parent mp np), (.str "link1", c5vlan mv nv t)] :=
    rfl
  have hvlan : vlanPass [(.str "link0", c5parent mp np),
      (.str "link1", c5vlan mv nv t)]
      = .ok ([(.str "link0", c5parentAfter mp np),
              (.str "link1", c5merged mv nv t)], [.str "link0"]) := rfl
  have hdel : delKeys [(.str "link0", c5parentAfter mp np),
      (.str "link1", c5merged mv nv t)] [.str "link0"]
      = .ok [(.str "link1", c5merged mv nv t)] := rfl
  have hattach : attachPass [(.str "link1", c5merged mv nv t)]
      [(.str "link1", c5network)] = .ok [(.str "link1", c5result mv t)] := rfl
  have hfinal : finalPass [(.str "link1", c5result mv t)] []
      = .ok [(pyLower mv, c5result mv t)] := rfl
  refine ⟨hvlan, hdel, rfl, rfl, ?_, ?_, get_config_keys_lower⟩
  · simp only [get_config_drive_interfaces, c5doc, h1, h2, hvlan, hdel,
      hattach, hfinal]
  · simp [alistGet, Ne.symm hmac]

theorem glean_c5_witness :
    get_config_drive_interfaces
        (c5doc "AA:BB:CC:DD:EE:01" "AA:BB:CC:DD:EE:02" "pname" "vname" 101)
      = .ok [(pyLower "AA:BB:CC:DD:EE:02",
              c5result "AA:BB:CC:DD:EE:02" 101)]
    ∧ alistGet [(pyLower "AA:BB:CC:DD:EE:02",
        c5result "AA:BB:CC:DD:EE:02" 101)] (pyLower "AA:BB:CC:DD:EE:01")
      = none :=
  ⟨(glean_c5_vlan_merge "AA:BB:CC:DD:EE:01" "AA:BB:CC:DD:EE:02" "pname"
      "vname" 101 (by decide)).2.2.2.2.1,
   (glean_c5_vlan_merge "AA:BB:CC:DD:EE:01" "AA:BB:CC:DD:EE:02" "pname"
      "vname" 101 (by decide)).2.2.2.2.2.1⟩

theorem alistSet_present_isSome [DecidableEq κ] (k : κ) (v : α) :
    ∀ (m : List (κ × α)) (w : α), alistGet m k = some w →
      ∀ k2, (alistGet (alistSet m k v) k2).isSome = (alistGet m k2).isSome := by
  intro m
  induction m with
  | nil => intro w h; simp [alistGet] at h
  | cons p rest ih =>
    obtain ⟨k0, v0⟩ := p
    intro w h k2
    by_cases h0 : k0 = k
    · subst h0
      simp only [alistSet, if_pos rfl]
      by_cases h2 : k0 = k2 <;> simp [alistGet, h2]
    · have hr : alistGet rest k = some w := by
        simpa [alistGet, h0] using h
      simp only [alistSet, if_neg h0]
      by_cases h2 : k0 = k2
      · simp [alistGet, h2]
      · simp only [alistGet, if_neg h2]
        exact ih w hr k2

theorem attachStep_ok (ifaces : PyMap) (link : Dict) (out : PyMap)
    (h : attachStep ifaces link = .ok out) :
    ((alistGet link "id").bind (alistGet ifaces)).isSome = true
    ∧ ∀ k2, (alistGet out k2).isSome = (alistGet ifaces k2).isSome := by
  cases hid : alistGet link "id" with
  | none =>
    simp only [attachStep, hid] at h
    exact Except.noConfusion h
  | some idv =>
    cases hif : alistGet ifaces idv with
    | none =>
      simp only [attachStep, hid, hif] at h
      exact Except.noConfusion h
    | some iface =>
      cases hmac : alistGet link "mac_address" with
      | none =>
        simp only [attachStep, hid, hif, hmac] at h
        exact Except.noConfusion h
      | some mac =>
        simp only [attachStep, hid, hif, hmac] at h
        injection h with h2
        constructor
        · simp [hif]
        · intro k2
          rw [← h2]
          exact alistSet_present_isSome idv _ ifaces iface hif k2

/-- Claim C10: the normalizer is not total when networks and links are
both present: a surviving link whose id no network references makes the
attachment loop raise KeyError (shown on a concrete document with one
link and no networks), and conversely any run of the attachment loop
that returns normally requires every processed link's id to be a key of
the network index. -/
theorem glean_c10_keyerror :
    get_config_drive_interfaces c10doc = .error .keyError
    ∧ ∀ links ifaces out, attachPass links ifaces = .ok out →
        ∀ p ∈ links,
          ((alistGet p.2 "id").bind (alistGet ifaces)).isSome = true := by
  refine ⟨rfl, ?_⟩
  intro links
  induction links with
  | nil =>
    intro ifaces out h p hp
    simp at hp
  | cons q rest ih =>
    intro ifaces out h p hp
    obtain ⟨kq, linkq⟩ := q
    cases hs : attachStep ifaces linkq with
    | error e =>
      simp only [attachPass, hs] at h
      exact Except.noConfusion h
    | ok ifaces2 =>
      simp only [attachPass, hs] at h
      rcases List.mem_cons.mp hp with rfl | hp2
      · exact (attachStep_ok ifaces linkq ifaces2 hs).1
      · have hkeys := (attachStep_ok ifaces linkq ifaces2 hs).2
        have hres := ih ifaces2 out h p hp2
        cases hid : alistGet p.2 "id" with
        | none =>
          rw [hid] at hres
          simp at hres
        | some idv =>
          rw [hid] at hres
          have hres2 : (alistGet ifaces2 idv).isSome = true := hres
          show (alistGet ifaces idv).isSome = true
          rw [← hkeys idv]
          exact hres2

theorem glean_c10_witness :
    ((alistGet c10wlink "id").bind (alistGet c10wifaces)).isSome = true :=
  glean_c10_keyerror.2 [(.str "link9", c10wlink)] c10wifaces
    [(.str "link9",
      [("id", .str "network9"), ("link", .str "link9"),
       ("mac_address", .str "aa:aa:aa:aa:aa:aa")])]
    (by rfl) (.str "link9", c10wlink) (by simp)

end Glean
